import Mathlib

set_option maxRecDepth 1000000

/-!
Shallow embedding of the beautyboostr/expert-bot Streamlit application
(src/app.py): the multi-stage wizard state machine, the keyword-based
recommendation matcher, the prompt composer templates, and the data-load
boundary. Python dictionaries are modelled as functions from keys to
optional values, Python None / str values as an inductive type, and the
Streamlit per-stage handlers as state-transition functions. Theorems below
settle the specification claims against these definitions.
-/

/-- A Python value stored in the session form_data dict: either None or a str. -/
inductive PyVal where
  | none
  | str (s : String)
deriving DecidableEq, Repr

/-- Python f-string interpolation of such a value: str(None) is the text None. -/
def pyStr : PyVal → String
  | PyVal.none => "None"
  | PyVal.str s => s

/-- The session form_data dictionary: a map from string keys to Python values. -/
abbrev Dict := String → Option PyVal

/-- The empty dict, the initial value of st.session_state.form_data. -/
def Dict.empty : Dict := fun _ => Option.none

/-- dict update with a single key (Python d[k] = v, and each key of d.update). -/
def Dict.insert (d : Dict) (k : String) (v : PyVal) : Dict :=
  fun q => if q = k then Option.some v else d q

/-- Python d.get(k): the stored value, or None when the key is absent. -/
def Dict.get (d : Dict) (k : String) : PyVal :=
  (d k).getD PyVal.none

/-- The wizard session state: st.session_state.stage and st.session_state.form_data. -/
structure WizardState where
  stage : Nat
  form_data : Dict

/-- Session start: stage = 0 and an empty form_data dict. -/
def initState : WizardState := { stage := 0, form_data := Dict.empty }

/-- Options of the stage-0 role selectbox. -/
def q1_options : List String :=
  ["Dermatologist", "Facialist", "Esthetician", "Skincare Coach", "Skincare Influencer", "Other"]

/-- Options of the stage-0 method radio. -/
def q2_options : List String :=
  ["Educational content", "Hands-on techniques", "A combination of both"]

/-- Options of the stage-0 time select_slider. -/
def q3_options : List String :=
  ["1-2 hours", "3-4 hours a week", "8-10 hours a week"]

/-- The stage-0 submit handler (src/app.py lines 87-98): stores the five answers
into form_data and routes on the time answer. The role answer may be None
(selectbox with index=None); the other widgets always yield strings. -/
def stage0Submit (answer1 : PyVal) (answer2 answer3 answer4 answer5 : String)
    (w : WizardState) : WizardState :=
  { stage :=
      if answer3 = "3-4 hours a week" then 1
      else if answer3 = "8-10 hours a week" then 2
      else 3,
    form_data :=
      ((((w.form_data.insert "role" answer1).insert "method"
        (PyVal.str answer2)).insert "time" (PyVal.str answer3)).insert "problem"
        (PyVal.str answer4)).insert "expertise" (PyVal.str answer5) }

/-- The two buttons of the stage-1 decision point. -/
inductive Stage1Choice where
  | createSingleLesson
  | outlineFullProgram
deriving DecidableEq, Repr

/-- The stage-1 button handlers (src/app.py lines 107-115). -/
def stage1Click (c : Stage1Choice) (w : WizardState) : WizardState :=
  match c with
  | Stage1Choice.createSingleLesson =>
      { stage := 3, form_data := w.form_data.insert "goal" (PyVal.str "single_lesson") }
  | Stage1Choice.outlineFullProgram =>
      { stage := 2, form_data := w.form_data.insert "goal" (PyVal.str "full_program") }

/-- The stage-2 submit handler of the combo-capable variant (src/app.py lines
127-136): stores the three transformation answers, then assigns goal from the
originally stored time commitment. -/
def stage2Submit (point_a point_b method_desc : String) (w : WizardState) : WizardState :=
  let d := ((w.form_data.insert "point_a" (PyVal.str point_a)).insert "point_b"
      (PyVal.str point_b)).insert "method_desc" (PyVal.str method_desc)
  let d2 :=
    if d.get "time" = PyVal.str "3-4 hours a week" then d.insert "goal" (PyVal.str "combo")
    else d.insert "goal" (PyVal.str "full_program")
  { stage := 3, form_data := d2 }

/-- The stage-2 submit handler of the final concatenated variant (src/app.py
lines 536-543): stores the three answers and assigns goal unconditionally. -/
def stage2SubmitFinal (point_a point_b method_desc : String) (w : WizardState) : WizardState :=
  let d := ((w.form_data.insert "point_a" (PyVal.str point_a)).insert "point_b"
      (PyVal.str point_b)).insert "method_desc" (PyVal.str method_desc)
  { stage := 3, form_data := d.insert "goal" (PyVal.str "full_program") }

/-- The Start Over button handler (src/app.py lines 236-239): stage back to 0,
form_data cleared. -/
def startOver (_w : WizardState) : WizardState :=
  { stage := 0, form_data := Dict.empty }

/-- The buttons rendered for a given state, per stage block of the script.
The Start Over button appears only inside the stage-3 block. -/
def renderedButtons (w : WizardState) : List String :=
  (if w.stage = 0 then ["Next Step"] else []) ++
  (if w.stage = 1 then ["Create a Single Lesson", "Outline a Full 12-Lesson Program"] else []) ++
  (if w.stage = 2 then ["Generate My Program Blueprint"] else []) ++
  (if w.stage = 3 then ["Start Over"] else [])

/-- One user interaction step of the wizard. The widget constraints are those
the UI guarantees: the method radio and time slider only produce their listed
options; buttons and forms are only reachable from the stage that renders them. -/
inductive WizardMove : WizardState → WizardState → Prop where
  | submit0 (a1 : PyVal) (a2 a3 a4 a5 : String) (w : WizardState)
      (h0 : w.stage = 0) (h2 : a2 ∈ q2_options) (h3 : a3 ∈ q3_options) :
      WizardMove w (stage0Submit a1 a2 a3 a4 a5 w)
  | click1 (c : Stage1Choice) (w : WizardState) (h : w.stage = 1) :
      WizardMove w (stage1Click c w)
  | submit2 (pa pb md : String) (w : WizardState) (h : w.stage = 2) :
      WizardMove w (stage2Submit pa pb md w)
  | reset (w : WizardState) (h : w.stage = 3) :
      WizardMove w (startOver w)

/-- States reachable from session start through wizard interactions. -/
inductive ReachableState : WizardState → Prop where
  | init : ReachableState initState
  | step {w w2 : WizardState} :
      ReachableState w → WizardMove w w2 → ReachableState w2

/-- The path invariants of the wizard used by the claims: a stage-0 state has
empty answers; stage 1 is only reached with the 3-4 hour commitment; stage 2
only with 3-4 or 8-10 hours; a terminal state has an assigned goal unless the
commitment is 1-2 hours; an 8-10 hour terminal state has goal full_program;
and goal combo only occurs with the 3-4 hour commitment. -/
def WizardInv (w : WizardState) : Prop :=
  (w.stage = 0 → w.form_data = Dict.empty) ∧
  (w.stage = 1 → w.form_data.get "time" = PyVal.str "3-4 hours a week") ∧
  (w.stage = 2 → w.form_data.get "time" = PyVal.str "3-4 hours a week" ∨
    w.form_data.get "time" = PyVal.str "8-10 hours a week") ∧
  (w.stage = 3 → w.form_data.get "goal" = PyVal.str "single_lesson" ∨
    w.form_data.get "goal" = PyVal.str "full_program" ∨
    w.form_data.get "goal" = PyVal.str "combo" ∨
    w.form_data.get "time" = PyVal.str "1-2 hours") ∧
  (w.stage = 3 → w.form_data.get "time" = PyVal.str "8-10 hours a week" →
    w.form_data.get "goal" = PyVal.str "full_program") ∧
  (w.form_data.get "goal" = PyVal.str "combo" →
    w.form_data.get "time" = PyVal.str "3-4 hours a week")

/-- Case folding of a string, character by character (models Python str.lower). -/
def strLower (s : String) : String := String.mk (s.data.map Char.toLower)

/-- Scan for an occurrence of needle inside hay (models Python substring `in`,
as the code performs it: try each suffix). -/
def inStr (needle : List Char) : List Char → Bool
  | [] => needle.isEmpty
  | c :: t => needle.isPrefixOf (c :: t) || inStr needle t

/-- Python `needle in hay` on strings. -/
def pyIn (needle hay : String) : Bool := inStr needle.data hay.data

/-- Occurrence as a substring, stated the way the spec words it: at some
position of the text, the next characters are exactly the keyword. -/
def substrOccurs (needle hay : String) : Bool :=
  (List.range (hay.data.length + 1)).any
    (fun i => (hay.data.drop i).take needle.data.length == needle.data)

/-- The free-text argument handed to the matcher: None, a str, or any other
Python object (with its truthiness). -/
inductive PyTextInput where
  | pyNone
  | pyStr (s : String)
  | otherObj (truthy : Bool)
deriving DecidableEq, Repr

/-- A row of problem_recommendations_final.csv as the code reads it. -/
structure ProblemRow where
  problem_keyword : String
  recommended_content : String
  recommended_program : String
  client_target_audience : Option String
deriving DecidableEq, Repr

/-- The row loop of find_problem_recommendation: first row whose case-folded
keyword occurs in the case-folded text wins; otherwise none. -/
def findRecLoop (user_problem_text : String) : List ProblemRow → Option ProblemRow
  | [] => Option.none
  | row :: rest =>
      if pyIn (strLower row.problem_keyword) (strLower user_problem_text) then Option.some row
      else findRecLoop user_problem_text rest

/-- find_problem_recommendation (src/app.py lines 33-38): falsy or non-str
input yields None immediately; otherwise scan the table rows in order. -/
def find_problem_recommendation (user_problem_text : PyTextInput)
    (problem_rec_df : List ProblemRow) : Option ProblemRow :=
  match user_problem_text with
  | PyTextInput.pyNone => Option.none
  | PyTextInput.otherObj _ => Option.none
  | PyTextInput.pyStr s =>
      if s = "" then Option.none else findRecLoop s problem_rec_df

/-- The matcher as the spec states it: the first row (in table order) whose
case-folded keyword occurs as a substring of the case-folded input text;
none when no keyword occurs; none immediately for empty or non-string input. -/
def matcherSpec (input : PyTextInput) (table : List ProblemRow) : Option ProblemRow :=
  match input with
  | PyTextInput.pyStr s =>
      if s = "" then Option.none
      else table.find? (fun row => substrOccurs (strLower row.problem_keyword) (strLower s))
  | _ => Option.none

/-- The shared header interpolated into every prompt (src/app.py lines 162-166). -/
def base_prompt_info (data : Dict) : String :=
  "\n        **Expert\x27s Information:**\n        * Role: " ++ pyStr (data.get "role") ++
  " | Method: " ++ pyStr (data.get "method") ++
  "\n        * Client Problem: \"" ++ pyStr (data.get "problem") ++
  "\" | Expertise: \"" ++ pyStr (data.get "expertise") ++ "\"\n        "

/-- The single-lesson prompt for method Educational content (src/app.py lines 170-177). -/
def single_lesson_prompt_edu (data : Dict) : String :=
  "\n            You are an expert curriculum designer. Your task is to brainstorm 4-5 specific, actionable ideas for a SINGLE EDUCATIONAL LESSON based on the expert\x27s profile.\n            " ++
  base_prompt_info data ++
  "\n            **Your Tasks:**\n            1.  **State Lesson Length:** Start by recommending the ideal lesson length is **5-12 minutes**.\n            2.  **Generate 4-5 Concrete Lesson Ideas:** For each idea, provide a clear title and a 1-2 sentence description of what the client will learn and do. These ideas must be highly specific and based on the expert\x27s problem and expertise.\n            Format the output using Markdown with a clear heading for the lesson ideas.\n            "

/-- The single-lesson prompt for the hands-on branch (src/app.py lines 179-186). -/
def single_lesson_prompt_hands_on (data : Dict) : String :=
  "\n            You are an expert instructional designer. Generate creative marketing content for a SINGLE, HANDS-ON LESSON (e.g., face massage, yoga) based on the expert\x27s information.\n            " ++
  base_prompt_info data ++
  "\n            **Your Tasks:**\n            1.  **Write a Lesson Description:** Create a short, engaging description (3-4 sentences) that focuses on the physical practice and its benefits.\n            2.  **Generate Title and Tagline Ideas:** Generate 4 creative titles for this single lesson, each with a compelling, benefit-driven tagline.\n            Format the output using Markdown.\n            "

/-- single_lesson_prompt as assigned at stage 3 (src/app.py lines 169-186). -/
def single_lesson_prompt (data : Dict) : String :=
  if data.get "method" = PyVal.str "Educational content" then single_lesson_prompt_edu data
  else single_lesson_prompt_hands_on data

/-- full_program_prompt (src/app.py lines 189-204), built for every terminal state. -/
def full_program_prompt (data : Dict) : String :=
  "\n        You are an expert instructional designer. Your task is to create a detailed outline for a FULL 12-LESSON MONTHLY PROGRAM based on the expert\x27s transformation method.\n        " ++
  base_prompt_info data ++
  "\n        **Expert\x27s Transformation Method:**\n        * **Starting Point (A):** " ++
  pyStr (data.get "point_a") ++
  "\n        * **Ending Result (B):** " ++ pyStr (data.get "point_b") ++
  "\n        * **Method Description:** " ++ pyStr (data.get "method_desc") ++
  "\n        * **IMPORTANT Program Structure:** The 12 lessons are delivered over ONE MONTH (3 lessons per week). All of your generated text must reflect this monthly timeline.\n\n        **Your Tasks:**\n        1.  **Write a Full Program Description:** Write an engaging description (3-4 sentences) for the one-month program.\n        2.  **Generate Title and Tagline Ideas:** Generate 4 creative titles for the full program, each with a tagline.\n        3.  **Create a 4-Week Lesson Outline:** Based on the expert\x27s A->B method, create a logical, 4-week lesson plan. Each week should contain 3 lesson titles. For each lesson, provide a one-sentence description of what the client will learn.\n        \n        Format the entire output using Markdown with clear headings.\n        "

/-- What the terminal-stage generation block emits, in order. -/
inductive Event where
  | markdown (s : String)
  | info (s : String)
  | genCall (p : String)
  | display (s : String)
deriving DecidableEq, Repr

/-- Display of one generation result: shown only when truthy (not None, not empty). -/
def displayOf (result : Option String) : List Event :=
  match result with
  | Option.none => []
  | Option.some c => if c = "" then [] else [Event.display c]

/-- The LOGIC TO HANDLE ALL CASES dispatch of the terminal stage (src/app.py
lines 206-234), with the external generation backend abstracted as g. -/
def stage3GenBlock (g : String → Option String) (data : Dict) : List Event :=
  if data.get "goal" = PyVal.str "single_lesson" ∨ data.get "time" = PyVal.str "1-2 hours" then
    [Event.markdown "### Part 1: Your Single Lesson Content",
     Event.genCall (single_lesson_prompt data)] ++ displayOf (g (single_lesson_prompt data))
  else if data.get "goal" = PyVal.str "full_program" then
    [Event.markdown "### Your Full Program Content & Outline",
     Event.genCall (full_program_prompt data)] ++ displayOf (g (full_program_prompt data))
  else if data.get "goal" = PyVal.str "combo" then
    ([Event.markdown "### Part 1: Your Single Lesson Content",
      Event.info "Here are creative ideas for the single lesson you can create now.",
      Event.genCall (single_lesson_prompt data)] ++ displayOf (g (single_lesson_prompt data))) ++
    ([Event.markdown "### Part 2: Your Full Program Outline",
      Event.info "And here is the detailed outline for the full program you can build next.",
      Event.genCall (full_program_prompt data)] ++ displayOf (g (full_program_prompt data)))
  else []

/-- The generation payloads issued by a run of the terminal block, in order. -/
def genCalls (events : List Event) : List String :=
  events.filterMap (fun e =>
    match e with
    | Event.genCall p => Option.some p
    | _ => Option.none)

/-- Presence of the two reference CSV files on disk. -/
structure FileSystem where
  recommendations_final_csv_present : Bool
  problem_recommendations_final_csv_present : Bool

/-- A Python object returned inside the load_data tuple. -/
inductive PyObj where
  | none
  | dataframe (rows : List (List String))
deriving DecidableEq, Repr

/-- load_data (src/app.py lines 22-31): read both CSVs; on FileNotFoundError
show an error and return the 2-tuple (None, None). The returned tuple is the
list of its items. -/
def load_data (fs : FileSystem) (recommendations_rows problem_rows : List (List String)) :
    List PyObj :=
  if fs.recommendations_final_csv_present then
    if fs.problem_recommendations_final_csv_present then
      [PyObj.dataframe recommendations_rows, PyObj.dataframe problem_rows]
    else [PyObj.none, PyObj.none]
  else [PyObj.none, PyObj.none]

/-- Python truthiness of a tuple: nonempty tuples are truthy. -/
def tupleTruthy (t : List PyObj) : Bool := !t.isEmpty

/-- Whether the module-level check `if load_data_result: ... else: st.stop()`
(src/app.py lines 61-65) halts the script before any stage block runs. -/
def halts_before_any_question (fs : FileSystem)
    (recommendations_rows problem_rows : List (List String)) : Bool :=
  !(tupleTruthy (load_data fs recommendations_rows problem_rows))

/-- Whether the run reaches and renders the stage-0 form: the load check let
execution continue and the current stage is 0. -/
def renders_stage0_form (fs : FileSystem)
    (recommendations_rows problem_rows : List (List String)) (w : WizardState) : Bool :=
  tupleTruthy (load_data fs recommendations_rows problem_rows) && (w.stage == 0)

/-- A stage-0 submission with every required field missing: role None,
problem and expertise empty (method and time keep their widget defaults). -/
def invalidSubmitState : WizardState :=
  stage0Submit PyVal.none "Hands-on techniques" "3-4 hours a week" "" "" initState

/-- A reachable stage-1 state (3-4 hours path). -/
def stage1DemoState : WizardState :=
  stage0Submit (PyVal.str "Facialist") "Educational content" "3-4 hours a week"
    "acne scars" "holistic skincare" initState

/-- A reachable combo terminal state: 3-4 hours, full-program choice, stage-2 submit. -/
def comboDemoState : WizardState :=
  stage2Submit "inflamed skin" "calm clear skin" "three phases"
    (stage1Click Stage1Choice.outlineFullProgram
      (stage0Submit (PyVal.str "Facialist") "Educational content" "3-4 hours a week"
        "acne scars" "holistic skincare" initState))

/-- A reachable 1-2 hours terminal state: stage 0 routes directly to stage 3,
with goal never assigned. -/
def oneTwoHoursDemoState : WizardState :=
  stage0Submit (PyVal.str "Other") "Hands-on techniques" "1-2 hours"
    "back pain" "yoga" initState

/-- A reachable 8-10 hours terminal state used to witness the full_program goal. -/
def eightTenDemoState : WizardState :=
  stage2Submit "point a text" "point b text" "method text"
    (stage0Submit (PyVal.str "Dermatologist") "Educational content" "8-10 hours a week"
      "rosacea" "clinical skincare" initState)

/-- A reachable single-lesson educational terminal state whose problem answer
itself contains the words full program. -/
def adversarialState : WizardState :=
  stage1Click Stage1Choice.createSingleLesson
    (stage0Submit (PyVal.str "Dermatologist") "Educational content" "3-4 hours a week"
      "I already sell a full program" "aging skin" initState)

/-- A reachable single-lesson educational terminal state whose free-text
answers are all empty. -/
def emptyAnswersEduState : WizardState :=
  stage1Click Stage1Choice.createSingleLesson
    (stage0Submit (PyVal.str "Other") "Educational content" "3-4 hours a week" "" "" initState)

/-- A stage-3 state produced by the final-variant stage-2 handler on the
3-4 hours path. -/
def finalVariantDemoState : WizardState :=
  stage2SubmitFinal "start" "finish" "method steps"
    (stage1Click Stage1Choice.outlineFullProgram
      (stage0Submit (PyVal.str "Esthetician") "Educational content" "3-4 hours a week"
        "acne" "clear skin" initState))

/-- A reachable terminal state on the 1-2 hours path, so point_a was never
collected: the full-program template is nevertheless built at stage 3. -/
def missingPointADemoState : WizardState :=
  stage0Submit (PyVal.str "Skincare Coach") "Hands-on techniques" "1-2 hours"
    "stress" "massage" initState

theorem data_append (a b : String) : (a ++ b).data = a.data ++ b.data := by
  cases a; cases b; rfl

theorem str_ext {a b : String} (h : a.data = b.data) : a = b := by
  cases a; cases b; exact congrArg String.mk h

theorem str_append_assoc (a b c : String) : a ++ b ++ c = a ++ (b ++ c) := by
  apply str_ext; simp [data_append]

theorem get_empty (k : String) : Dict.empty.get k = PyVal.none := rfl

theorem Dict.get_insert_self (d : Dict) (k : String) (v : PyVal) :
    (d.insert k v).get k = v := by
  simp [Dict.get, Dict.insert]

theorem Dict.get_insert_of_ne (d : Dict) (k1 k2 : String) (v : PyVal) (h : k2 ≠ k1) :
    (d.insert k1 v).get k2 = d.get k2 := by
  simp [Dict.get, Dict.insert, h]

theorem isPrefixOf_iff_exists (l1 l2 : List Char) :
    l1.isPrefixOf l2 = true ↔ ∃ t, l2 = l1 ++ t := by
  induction l1 generalizing l2 with
  | nil => simp [List.isPrefixOf]
  | cons a as ih =>
    cases l2 with
    | nil => simp [List.isPrefixOf]
    | cons b bs =>
      simp only [List.isPrefixOf, Bool.and_eq_true, beq_iff_eq, ih, List.cons_append,
        List.cons.injEq]
      constructor
      · rintro ⟨rfl, t, rfl⟩
        exact ⟨t, rfl, rfl⟩
      · rintro ⟨t, rfl, rfl⟩
        exact ⟨rfl, t, rfl⟩

theorem inStr_nil_needle (b : List Char) : inStr [] b = true := by
  cases b <;> simp [inStr, List.isPrefixOf]

theorem isPrefixOf_append_extend (l1 l2 t : List Char) (h : l1.isPrefixOf l2 = true) :
    l1.isPrefixOf (l2 ++ t) = true := by
  rw [isPrefixOf_iff_exists] at h ⊢
  rcases h with ⟨u, rfl⟩
  exact ⟨u ++ t, by simp⟩

theorem isPrefixOf_self_append (n t : List Char) : n.isPrefixOf (n ++ t) = true := by
  rw [isPrefixOf_iff_exists]
  exact ⟨t, rfl⟩

theorem inStr_append_right (n a b : List Char) (h : inStr n b = true) :
    inStr n (a ++ b) = true := by
  induction a with
  | nil => exact h
  | cons c t ih => simp [inStr, List.cons_append, ih, Bool.or_eq_true]

theorem inStr_append_left (n a b : List Char) (h : inStr n a = true) :
    inStr n (a ++ b) = true := by
  induction a with
  | nil =>
    simp only [inStr, List.isEmpty_iff] at h
    subst h
    exact inStr_nil_needle b
  | cons c t ih =>
    simp only [inStr, Bool.or_eq_true] at h
    rcases h with h | h
    · simp only [List.cons_append, inStr, Bool.or_eq_true]
      exact Or.inl (by simpa [List.cons_append] using isPrefixOf_append_extend n (c :: t) b h)
    · simp only [List.cons_append, inStr, Bool.or_eq_true]
      exact Or.inr (ih h)

theorem inStr_self_append (n rest : List Char) : inStr n (n ++ rest) = true := by
  cases n with
  | nil => exact inStr_nil_needle rest
  | cons c t =>
    simp only [List.cons_append, inStr, Bool.or_eq_true]
    refine Or.inl ?_
    have h := isPrefixOf_self_append (c :: t) rest
    rw [List.cons_append] at h
    exact h

theorem inStr_split (n m rest pre : List Char) (hsplit : m = pre ++ n) :
    inStr n (m ++ rest) = true := by
  subst hsplit
  rw [List.append_assoc]
  exact inStr_append_right n pre (n ++ rest) (inStr_self_append n rest)

theorem inStr_iff_exists (n h : List Char) :
    inStr n h = true ↔ ∃ pre post, h = pre ++ n ++ post := by
  induction h with
  | nil =>
    simp only [inStr, List.isEmpty_iff]
    constructor
    · rintro rfl
      exact ⟨[], [], rfl⟩
    · rintro ⟨p, q, hq⟩
      rcases List.append_eq_nil.mp hq.symm with ⟨hpn, hq0⟩
      rcases List.append_eq_nil.mp hpn with ⟨hp0, hn0⟩
      exact hn0
  | cons c t ih =>
    simp only [inStr, Bool.or_eq_true, isPrefixOf_iff_exists, ih]
    constructor
    · rintro (⟨s, hs⟩ | ⟨p, q, hpq⟩)
      · exact ⟨[], s, by simpa using hs⟩
      · exact ⟨c :: p, q, by simp [hpq]⟩
    · rintro ⟨p, q, hpq⟩
      cases p with
      | nil => exact Or.inl ⟨q, by simpa using hpq⟩
      | cons d p2 =>
        simp only [List.cons_append, List.cons.injEq] at hpq
        exact Or.inr ⟨p2, q, hpq.2⟩

theorem substrOccurs_iff_exists (n h : String) :
    substrOccurs n h = true ↔ ∃ pre post, h.data = pre ++ n.data ++ post := by
  unfold substrOccurs
  rw [List.any_eq_true]
  constructor
  · rintro ⟨i, hi, hbeq⟩
    rw [List.mem_range] at hi
    rw [beq_iff_eq] at hbeq
    refine ⟨h.data.take i, (h.data.drop i).drop n.data.length, ?_⟩
    conv_lhs => rw [← List.take_append_drop i h.data]
    rw [List.append_assoc]
    congr 1
    conv_lhs => rw [← List.take_append_drop n.data.length (h.data.drop i)]
    rw [hbeq]
  · rintro ⟨pre, post, hsplit⟩
    refine ⟨pre.length, ?_, ?_⟩
    · rw [List.mem_range]
      have hlen : h.data.length = pre.length + n.data.length + post.length := by
        rw [hsplit]
        simp [List.length_append]
        omega
      omega
    · rw [beq_iff_eq, hsplit, List.append_assoc, List.drop_left, List.take_left]

theorem pyIn_eq_substrOccurs (n h : String) : pyIn n h = substrOccurs n h := by
  rw [Bool.eq_iff_iff]
  rw [show pyIn n h = inStr n.data h.data from rfl]
  rw [inStr_iff_exists, substrOccurs_iff_exists]

theorem findRecLoop_eq_find (s : String) (rows : List ProblemRow) :
    findRecLoop s rows =
      rows.find? (fun row => pyIn (strLower row.problem_keyword) (strLower s)) := by
  induction rows with
  | nil => rfl
  | cons r rs ih =>
    rw [findRecLoop]
    cases hp : pyIn (strLower r.problem_keyword) (strLower s) <;>
      simp [hp, ih, List.find?_cons]

theorem genCalls_append (a b : List Event) : genCalls (a ++ b) = genCalls a ++ genCalls b :=
  List.filterMap_append a b _

theorem genCalls_displayOf (r : Option String) : genCalls (displayOf r) = [] := by
  cases r with
  | none => rfl
  | some c =>
    by_cases hc : c = "" <;> simp [displayOf, hc, genCalls]

theorem data_getElem9 (a b : String) (h : 9 < a.data.length) :
    (a ++ b).data[9]? = a.data[9]? := by
  rw [data_append]
  exact List.getElem?_append_left h

theorem wizardInv_init : WizardInv initState := by
  refine ⟨fun _ => rfl, ?_, ?_, ?_, ?_, ?_⟩ <;> intro hx <;>
    simp [initState, Dict.get, Dict.empty] at hx

theorem wizardInv_step (v w2 : WizardState) (hm : WizardMove v w2) (ih : WizardInv v) :
    WizardInv w2 := by
  cases hm with
  | submit0 a1 a2 a3 a4 a5 v h0 h2 h3 =>
    have hempty : v.form_data = Dict.empty := ih.1 h0
    have htime : (stage0Submit a1 a2 a3 a4 a5 v).form_data.get "time" = PyVal.str a3 := by
      simp [stage0Submit, Dict.get, Dict.insert]
    have hgoal : (stage0Submit a1 a2 a3 a4 a5 v).form_data.get "goal" = PyVal.none := by
      simp [stage0Submit, Dict.get, Dict.insert, hempty, Dict.empty]
    have hstage : (stage0Submit a1 a2 a3 a4 a5 v).stage =
        (if a3 = "3-4 hours a week" then 1 else if a3 = "8-10 hours a week" then 2 else 3) :=
      rfl
    simp only [q3_options, List.mem_cons, List.not_mem_nil, or_false,
      List.mem_singleton] at h3
    rcases h3 with rfl | rfl | rfl <;>
      refine ⟨?_, ?_, ?_, ?_, ?_, ?_⟩ <;> simp [hstage, htime, hgoal]
  | click1 c v h =>
    have ht34 : v.form_data.get "time" = PyVal.str "3-4 hours a week" := ih.2.1 h
    cases c with
    | createSingleLesson =>
      have htime : (stage1Click Stage1Choice.createSingleLesson v).form_data.get "time" =
          PyVal.str "3-4 hours a week" := by
        rw [show (stage1Click Stage1Choice.createSingleLesson v).form_data =
          v.form_data.insert "goal" (PyVal.str "single_lesson") from rfl]
        rw [Dict.get_insert_of_ne _ _ _ _ (by decide)]
        exact ht34
      have hgoal : (stage1Click Stage1Choice.createSingleLesson v).form_data.get "goal" =
          PyVal.str "single_lesson" := by
        rw [show (stage1Click Stage1Choice.createSingleLesson v).form_data =
          v.form_data.insert "goal" (PyVal.str "single_lesson") from rfl]
        exact Dict.get_insert_self _ _ _
      have hstage : (stage1Click Stage1Choice.createSingleLesson v).stage = 3 := rfl
      refine ⟨?_, ?_, ?_, ?_, ?_, ?_⟩ <;> simp [hstage, htime, hgoal]
    | outlineFullProgram =>
      have htime : (stage1Click Stage1Choice.outlineFullProgram v).form_data.get "time" =
          PyVal.str "3-4 hours a week" := by
        rw [show (stage1Click Stage1Choice.outlineFullProgram v).form_data =
          v.form_data.insert "goal" (PyVal.str "full_program") from rfl]
        rw [Dict.get_insert_of_ne _ _ _ _ (by decide)]
        exact ht34
      have hgoal : (stage1Click Stage1Choice.outlineFullProgram v).form_data.get "goal" =
          PyVal.str "full_program" := by
        rw [show (stage1Click Stage1Choice.outlineFullProgram v).form_data =
          v.form_data.insert "goal" (PyVal.str "full_program") from rfl]
        exact Dict.get_insert_self _ _ _
      have hstage : (stage1Click Stage1Choice.outlineFullProgram v).stage = 2 := rfl
      refine ⟨?_, ?_, ?_, ?_, ?_, ?_⟩ <;> simp [hstage, htime, hgoal]
  | submit2 pa pb md v h =>
    have ht := ih.2.2.1 h
    have hdt : (((v.form_data.insert "point_a" (PyVal.str pa)).insert "point_b"
        (PyVal.str pb)).insert "method_desc" (PyVal.str md)).get "time" =
        v.form_data.get "time" := by
      rw [Dict.get_insert_of_ne _ _ _ _ (by decide), Dict.get_insert_of_ne _ _ _ _ (by decide),
        Dict.get_insert_of_ne _ _ _ _ (by decide)]
    have hstage : (stage2Submit pa pb md v).stage = 3 := rfl
    rcases ht with ht | ht
    · have hform : (stage2Submit pa pb md v).form_data =
          (((v.form_data.insert "point_a" (PyVal.str pa)).insert "point_b"
            (PyVal.str pb)).insert "method_desc" (PyVal.str md)).insert "goal"
            (PyVal.str "combo") := by
        simp [stage2Submit, hdt, ht]
      have hgoal : (stage2Submit pa pb md v).form_data.get "goal" = PyVal.str "combo" := by
        rw [hform]
        exact Dict.get_insert_self _ _ _
      have htime : (stage2Submit pa pb md v).form_data.get "time" =
          PyVal.str "3-4 hours a week" := by
        rw [hform, Dict.get_insert_of_ne _ _ _ _ (by decide), hdt]
        exact ht
      refine ⟨?_, ?_, ?_, ?_, ?_, ?_⟩ <;> simp [hstage, htime, hgoal]
    · have hform : (stage2Submit pa pb md v).form_data =
          (((v.form_data.insert "point_a" (PyVal.str pa)).insert "point_b"
            (PyVal.str pb)).insert "method_desc" (PyVal.str md)).insert "goal"
            (PyVal.str "full_program") := by
        simp [stage2Submit, hdt, ht]
      have hgoal : (stage2Submit pa pb md v).form_data.get "goal" =
          PyVal.str "full_program" := by
        rw [hform]
        exact Dict.get_insert_self _ _ _
      have htime : (stage2Submit pa pb md v).form_data.get "time" =
          PyVal.str "8-10 hours a week" := by
        rw [hform, Dict.get_insert_of_ne _ _ _ _ (by decide), hdt]
        exact ht
      refine ⟨?_, ?_, ?_, ?_, ?_, ?_⟩ <;> simp [hstage, htime, hgoal]
  | reset v h =>
    refine ⟨fun _ => rfl, ?_, ?_, ?_, ?_, ?_⟩ <;> intro hx <;>
      simp [startOver, Dict.get, Dict.empty] at hx

theorem reachable_inv (w : WizardState) (h : ReachableState w) : WizardInv w := by
  induction h with
  | init => exact wizardInv_init
  | step hr hm ih => exact wizardInv_step _ _ hm ih

/-- Claim C1: evaluated at the failing input. With recommendations_final.csv
absent, load_data reports the missing file and returns the 2-tuple
(None, None); that tuple is truthy, so the module-level check does not halt
the run and the stage-0 form is still rendered, contrary to the claim that
every such run stops before stage 0 is shown. -/
theorem C1_missing_file_still_renders_stage0 :
    load_data ⟨false, true⟩ [] [] = [PyObj.none, PyObj.none] ∧
    halts_before_any_question ⟨false, true⟩ [] [] = false ∧
    renders_stage0_form ⟨false, true⟩ [] [] initState = true :=
  ⟨rfl, rfl, rfl⟩

/-- Claim C2: counterexample. A stage-0 submission with the role missing
(None) and empty problem and expertise advances the stage from 0 to 1 and
writes all the invalid answers into form_data, so the wizard state after the
invalid submission differs from the state before it. -/
theorem C2_counterexample :
    invalidSubmitState.stage = 1 ∧
    initState.form_data "role" = Option.none ∧
    invalidSubmitState.form_data "role" = Option.some PyVal.none ∧
    invalidSubmitState.form_data "problem" = Option.some (PyVal.str "") ∧
    invalidSubmitState ≠ initState := by
  refine ⟨rfl, rfl, rfl, rfl, ?_⟩
  intro hEq
  exact absurd (congrArg WizardState.stage hEq) (by decide)

/-- Claim C2 (amended): every stage-0 submission, valid or not, advances the
stage away from 0 and stores all five submitted answers in form_data,
including a None role and empty problem or expertise; no validation
re-presents the stage. -/
theorem C2_submission_always_advances (a1 : PyVal) (a2 a3 a4 a5 : String)
    (w : WizardState) (h : w.stage = 0) :
    (stage0Submit a1 a2 a3 a4 a5 w).stage ≠ w.stage ∧
    (stage0Submit a1 a2 a3 a4 a5 w).form_data "role" = Option.some a1 ∧
    (stage0Submit a1 a2 a3 a4 a5 w).form_data "method" = Option.some (PyVal.str a2) ∧
    (stage0Submit a1 a2 a3 a4 a5 w).form_data "time" = Option.some (PyVal.str a3) ∧
    (stage0Submit a1 a2 a3 a4 a5 w).form_data "problem" = Option.some (PyVal.str a4) ∧
    (stage0Submit a1 a2 a3 a4 a5 w).form_data "expertise" = Option.some (PyVal.str a5) := by
  refine ⟨?_, rfl, rfl, rfl, rfl, rfl⟩
  rw [h]
  show (if a3 = "3-4 hours a week" then 1 else if a3 = "8-10 hours a week" then 2 else 3) ≠ 0
  split_ifs <;> simp

/-- Claim C2 (amended), witnessed on the invalid submission of the
counterexample input. -/
theorem C2_witness :
    (stage0Submit PyVal.none "Hands-on techniques" "3-4 hours a week" "" "" initState).stage ≠
      initState.stage ∧
    (stage0Submit PyVal.none "Hands-on techniques" "3-4 hours a week" "" ""
      initState).form_data "role" = Option.some PyVal.none ∧
    (stage0Submit PyVal.none "Hands-on techniques" "3-4 hours a week" "" ""
      initState).form_data "method" = Option.some (PyVal.str "Hands-on techniques") ∧
    (stage0Submit PyVal.none "Hands-on techniques" "3-4 hours a week" "" ""
      initState).form_data "time" = Option.some (PyVal.str "3-4 hours a week") ∧
    (stage0Submit PyVal.none "Hands-on techniques" "3-4 hours a week" "" ""
      initState).form_data "problem" = Option.some (PyVal.str "") ∧
    (stage0Submit PyVal.none "Hands-on techniques" "3-4 hours a week" "" ""
      initState).form_data "expertise" = Option.some (PyVal.str "") :=
  C2_submission_always_advances PyVal.none "Hands-on techniques" "3-4 hours a week" "" ""
    initState rfl

/-- Claim C3: the code matcher equals the substring-containment reference
function stated from the spec: first row in table order whose case-folded
keyword occurs within the case-folded text, none when no keyword occurs, and
none immediately for empty or non-string input. -/
theorem C3_matcher_equals_reference (input : PyTextInput) (table : List ProblemRow) :
    find_problem_recommendation input table = matcherSpec input table := by
  cases input with
  | pyNone => rfl
  | otherObj t => rfl
  | pyStr s =>
    by_cases hs : s = ""
    · simp [find_problem_recommendation, matcherSpec, hs]
    · rw [show find_problem_recommendation (PyTextInput.pyStr s) table =
        (if s = "" then Option.none else findRecLoop s table) from rfl]
      rw [show matcherSpec (PyTextInput.pyStr s) table =
        (if s = "" then Option.none else table.find?
          (fun row => substrOccurs (strLower row.problem_keyword) (strLower s))) from rfl]
      rw [if_neg hs, if_neg hs, findRecLoop_eq_find]
      congr 1
      funext row
      exact pyIn_eq_substrOccurs _ _

/-- Claim C6: counterexample. In a reachable stage-1 state only the two
decision buttons are rendered: no Start Over control is offered there,
although the claim asserts availability from every stage from 1 onward. -/
theorem C6_counterexample :
    stage1DemoState.stage = 1 ∧
    renderedButtons stage1DemoState =
      ["Create a Single Lesson", "Outline a Full 12-Lesson Program"] ∧
    "Start Over" ∉ renderedButtons stage1DemoState := by
  refine ⟨rfl, rfl, ?_⟩
  intro hmem
  rw [show renderedButtons stage1DemoState =
    ["Create a Single Lesson", "Outline a Full 12-Lesson Program"] from rfl] at hmem
  exact absurd hmem (by decide)

/-- Claim C6 (amended): the Start Over control is offered only at the
terminal stage 3, and performing it unconditionally resets the wizard to its
initial state: stage 0 and an empty answers dict, from any state whatsoever. -/
theorem C6_start_over_resets :
    (∀ w : WizardState, "Start Over" ∈ renderedButtons w ↔ w.stage = 3) ∧
    (∀ w : WizardState, startOver w = initState) := by
  constructor
  · intro w
    constructor
    · intro hmem
      unfold renderedButtons at hmem
      split_ifs at hmem <;> simp_all
    · intro h3
      simp [renderedButtons, h3]
  · intro w
    rfl

/-- Claim C7: the stage-0 routing is a function of the time answer alone:
3-4 hours a week goes to stage 1, 8-10 hours a week to stage 2, and any other
value (the remaining option 1-2 hours) to the terminal stage 3; the other
four answers and the prior state never influence the next stage. -/
theorem C7_stage0_routing (a1 : PyVal) (a2 a3 a4 a5 : String) (w : WizardState) :
    (stage0Submit a1 a2 a3 a4 a5 w).stage =
      (if a3 = "3-4 hours a week" then 1 else if a3 = "8-10 hours a week" then 2 else 3) ∧
    ∀ (b1 : PyVal) (b2 b4 b5 : String) (w2 : WizardState),
      (stage0Submit b1 b2 a3 b4 b5 w2).stage = (stage0Submit a1 a2 a3 a4 a5 w).stage :=
  ⟨rfl, fun _ _ _ _ _ => rfl⟩

theorem inStr_suffix (n pre : List Char) : inStr n (pre ++ n) = true := by
  have h := inStr_self_append n ([] : List Char)
  rw [List.append_nil] at h
  exact inStr_append_right n pre n h

/-- Claim C4: counterexample. The final-variant stage-2 handler (src/app.py
lines 536-543), applied on a path whose stored time commitment is 3-4 hours a
week, assigns goal full_program and not combo, contradicting the claimed
assignment rule for every stage-2 submission. -/
theorem C4_counterexample :
    (stage1Click Stage1Choice.outlineFullProgram
      (stage0Submit (PyVal.str "Esthetician") "Educational content" "3-4 hours a week"
        "acne" "clear skin" initState)).form_data.get "time" =
      PyVal.str "3-4 hours a week" ∧
    finalVariantDemoState.form_data.get "goal" = PyVal.str "full_program" ∧
    finalVariantDemoState.form_data.get "goal" ≠ PyVal.str "combo" := by
  refine ⟨rfl, rfl, ?_⟩
  intro hEq
  exact absurd hEq (by decide)

/-- Claim C4 (amended): the combo-capable stage-2 handler assigns goal combo
exactly when the stored time is 3-4 hours a week and full_program otherwise;
the final-variant handler assigns full_program unconditionally; and on every
reachable terminal state of the 8-10 hours path the goal is full_program and
never single_lesson. -/
theorem C4_goal_assignment :
    (∀ (pa pb md : String) (w : WizardState),
      (stage2Submit pa pb md w).form_data.get "goal" =
        (if w.form_data.get "time" = PyVal.str "3-4 hours a week" then PyVal.str "combo"
         else PyVal.str "full_program")) ∧
    (∀ (pa pb md : String) (w : WizardState),
      (stage2SubmitFinal pa pb md w).form_data.get "goal" = PyVal.str "full_program") ∧
    (∀ w : WizardState, ReachableState w → w.stage = 3 →
      w.form_data.get "time" = PyVal.str "8-10 hours a week" →
      w.form_data.get "goal" = PyVal.str "full_program" ∧
      w.form_data.get "goal" ≠ PyVal.str "single_lesson") := by
  refine ⟨?_, ?_, ?_⟩
  · intro pa pb md w
    have hdt : (((w.form_data.insert "point_a" (PyVal.str pa)).insert "point_b"
        (PyVal.str pb)).insert "method_desc" (PyVal.str md)).get "time" =
        w.form_data.get "time" := by
      rw [Dict.get_insert_of_ne _ _ _ _ (by decide), Dict.get_insert_of_ne _ _ _ _ (by decide),
        Dict.get_insert_of_ne _ _ _ _ (by decide)]
    by_cases hc : w.form_data.get "time" = PyVal.str "3-4 hours a week"
    · rw [if_pos hc]
      have hform : (stage2Submit pa pb md w).form_data =
          (((w.form_data.insert "point_a" (PyVal.str pa)).insert "point_b"
            (PyVal.str pb)).insert "method_desc" (PyVal.str md)).insert "goal"
            (PyVal.str "combo") := by
        simp [stage2Submit, hdt, hc]
      rw [hform]
      exact Dict.get_insert_self _ _ _
    · rw [if_neg hc]
      have hform : (stage2Submit pa pb md w).form_data =
          (((w.form_data.insert "point_a" (PyVal.str pa)).insert "point_b"
            (PyVal.str pb)).insert "method_desc" (PyVal.str md)).insert "goal"
            (PyVal.str "full_program") := by
        simp [stage2Submit, hdt, hc]
      rw [hform]
      exact Dict.get_insert_self _ _ _
  · intro pa pb md w
    exact Dict.get_insert_self _ _ _
  · intro w hr h3 h810
    have inv := reachable_inv w hr
    have hfull := inv.2.2.2.2.1 h3 h810
    refine ⟨hfull, ?_⟩
    rw [hfull]
    intro hEq
    exact absurd hEq (by decide)

/-- Claim C4 (amended), witnessed on a reachable 8-10 hours terminal state
and on a concrete final-variant submission. -/
theorem C4_witness :
    eightTenDemoState.form_data.get "goal" = PyVal.str "full_program" ∧
    eightTenDemoState.form_data.get "goal" ≠ PyVal.str "single_lesson" ∧
    (stage2SubmitFinal "a" "b" "c" initState).form_data.get "goal" =
      PyVal.str "full_program" := by
  have hr : ReachableState eightTenDemoState := by
    apply ReachableState.step
    · apply ReachableState.step
      · exact ReachableState.init
      · exact WizardMove.submit0 (PyVal.str "Dermatologist") "Educational content"
          "8-10 hours a week" "rosacea" "clinical skincare" initState rfl
          (by decide) (by decide)
    · exact WizardMove.submit2 _ _ _ _ rfl
  have h := C4_goal_assignment.2.2 eightTenDemoState hr rfl rfl
  exact ⟨h.1, h.2, C4_goal_assignment.2.1 "a" "b" "c" initState⟩

/-- Claim C10: on every reachable terminal state the goal field has already
been assigned, except on the 1-2 hours path; there the terminal dispatch
selects the single-lesson branch through the time check, so its outcome never
depends on the unassigned goal. -/
theorem C10_goal_assigned_before_use (w : WizardState) (hr : ReachableState w)
    (h3 : w.stage = 3) :
    w.form_data.get "goal" ≠ PyVal.none ∨
    (w.form_data.get "time" = PyVal.str "1-2 hours" ∧
      ∀ g : String → Option String,
        stage3GenBlock g w.form_data =
          [Event.markdown "### Part 1: Your Single Lesson Content",
           Event.genCall (single_lesson_prompt w.form_data)] ++
          displayOf (g (single_lesson_prompt w.form_data))) := by
  have inv := reachable_inv w hr
  rcases inv.2.2.2.1 h3 with hg | hg | hg | ht
  · exact Or.inl (by rw [hg]; intro hx; exact absurd hx (by decide))
  · exact Or.inl (by rw [hg]; intro hx; exact absurd hx (by decide))
  · exact Or.inl (by rw [hg]; intro hx; exact absurd hx (by decide))
  · refine Or.inr ⟨ht, fun g => ?_⟩
    have hcond : w.form_data.get "goal" = PyVal.str "single_lesson" ∨
        w.form_data.get "time" = PyVal.str "1-2 hours" := Or.inr ht
    rw [stage3GenBlock, if_pos hcond]

/-- Claim C10, witnessed on the reachable 1-2 hours terminal state. -/
theorem C10_witness :
    oneTwoHoursDemoState.form_data.get "goal" ≠ PyVal.none ∨
    (oneTwoHoursDemoState.form_data.get "time" = PyVal.str "1-2 hours" ∧
      ∀ g : String → Option String,
        stage3GenBlock g oneTwoHoursDemoState.form_data =
          [Event.markdown "### Part 1: Your Single Lesson Content",
           Event.genCall (single_lesson_prompt oneTwoHoursDemoState.form_data)] ++
          displayOf (g (single_lesson_prompt oneTwoHoursDemoState.form_data))) := by
  have hr : ReachableState oneTwoHoursDemoState := by
    apply ReachableState.step
    · exact ReachableState.init
    · exact WizardMove.submit0 (PyVal.str "Other") "Hands-on techniques" "1-2 hours"
        "back pain" "yoga" initState rfl (by decide) (by decide)
  exact C10_goal_assigned_before_use oneTwoHoursDemoState hr rfl

theorem genCalls_nil : genCalls [] = [] := rfl

theorem genCalls_cons_markdown (s : String) (l : List Event) :
    genCalls (Event.markdown s :: l) = genCalls l := by
  simp [genCalls, List.filterMap_cons]

theorem genCalls_cons_info (s : String) (l : List Event) :
    genCalls (Event.info s :: l) = genCalls l := by
  simp [genCalls, List.filterMap_cons]

theorem genCalls_cons_genCall (p : String) (l : List Event) :
    genCalls (Event.genCall p :: l) = p :: genCalls l := by
  simp [genCalls, List.filterMap_cons]

theorem single_lesson_prompt_head9 (d : Dict) :
    (single_lesson_prompt d).data[9]? = Option.some ' ' := by
  unfold single_lesson_prompt
  split
  · unfold single_lesson_prompt_edu
    rw [str_append_assoc, data_getElem9 _ _ (by decide)]
    decide
  · unfold single_lesson_prompt_hands_on
    rw [str_append_assoc, data_getElem9 _ _ (by decide)]
    decide

theorem full_program_prompt_head9 (d : Dict) :
    (full_program_prompt d).data[9]? = Option.some 'Y' := by
  unfold full_program_prompt
  simp only [str_append_assoc]
  rw [data_getElem9 _ _ (by decide)]
  decide

theorem single_ne_full (d : Dict) :
    single_lesson_prompt d ≠ full_program_prompt d := by
  intro hEq
  have h1 := single_lesson_prompt_head9 d
  rw [hEq, full_program_prompt_head9 d] at h1
  exact absurd h1 (by decide)

/-- Claim C8: on every reachable terminal state with goal combo, the
generation block issues exactly two independent generation calls, the
single-lesson payload first and the full-program payload second, each under
its own Part heading, and the two payload strings are distinct. -/
theorem C8_combo_two_calls (w : WizardState) (hr : ReachableState w)
    (_h3 : w.stage = 3) (hgoal : w.form_data.get "goal" = PyVal.str "combo")
    (g : String → Option String) :
    genCalls (stage3GenBlock g w.form_data) =
      [single_lesson_prompt w.form_data, full_program_prompt w.form_data] ∧
    stage3GenBlock g w.form_data =
      ([Event.markdown "### Part 1: Your Single Lesson Content",
        Event.info "Here are creative ideas for the single lesson you can create now.",
        Event.genCall (single_lesson_prompt w.form_data)] ++
        displayOf (g (single_lesson_prompt w.form_data))) ++
      ([Event.markdown "### Part 2: Your Full Program Outline",
        Event.info "And here is the detailed outline for the full program you can build next.",
        Event.genCall (full_program_prompt w.form_data)] ++
        displayOf (g (full_program_prompt w.form_data))) ∧
    single_lesson_prompt w.form_data ≠ full_program_prompt w.form_data := by
  have inv := reachable_inv w hr
  have ht : w.form_data.get "time" = PyVal.str "3-4 hours a week" := inv.2.2.2.2.2 hgoal
  have hc1 : ¬ (w.form_data.get "goal" = PyVal.str "single_lesson" ∨
      w.form_data.get "time" = PyVal.str "1-2 hours") := by
    rw [hgoal, ht]
    decide
  have hc2 : ¬ w.form_data.get "goal" = PyVal.str "full_program" := by
    rw [hgoal]
    decide
  have hblock : stage3GenBlock g w.form_data =
      ([Event.markdown "### Part 1: Your Single Lesson Content",
        Event.info "Here are creative ideas for the single lesson you can create now.",
        Event.genCall (single_lesson_prompt w.form_data)] ++
        displayOf (g (single_lesson_prompt w.form_data))) ++
      ([Event.markdown "### Part 2: Your Full Program Outline",
        Event.info "And here is the detailed outline for the full program you can build next.",
        Event.genCall (full_program_prompt w.form_data)] ++
        displayOf (g (full_program_prompt w.form_data))) := by
    unfold stage3GenBlock
    rw [if_neg hc1, if_neg hc2, if_pos hgoal]
  refine ⟨?_, hblock, single_ne_full w.form_data⟩
  rw [hblock]
  simp [genCalls_append, genCalls_displayOf, genCalls_cons_markdown, genCalls_cons_info,
    genCalls_cons_genCall, genCalls_nil]

/-- Claim C8, witnessed on the reachable combo terminal state with a failing
generation backend. -/
theorem C8_witness :
    genCalls (stage3GenBlock (fun _ => Option.none) comboDemoState.form_data) =
      [single_lesson_prompt comboDemoState.form_data,
       full_program_prompt comboDemoState.form_data] ∧
    single_lesson_prompt comboDemoState.form_data ≠
      full_program_prompt comboDemoState.form_data := by
  have hr : ReachableState comboDemoState := by
    apply ReachableState.step
    · apply ReachableState.step
      · apply ReachableState.step
        · exact ReachableState.init
        · exact WizardMove.submit0 (PyVal.str "Facialist") "Educational content"
            "3-4 hours a week" "acne scars" "holistic skincare" initState rfl
            (by decide) (by decide)
      · exact WizardMove.click1 Stage1Choice.outlineFullProgram _ rfl
    · exact WizardMove.submit2 "inflamed skin" "calm clear skin" "three phases" _ rfl
  have h := C8_combo_two_calls comboDemoState hr rfl rfl (fun _ => Option.none)
  exact ⟨h.1, h.2.2⟩

/-- Claim C5: counterexample. On the reachable 1-2 hours terminal state the
full-program template is built although point_a was never collected: the
composer raises no error and silently interpolates the text None into the
payload in place of the missing starting point. -/
theorem C5_counterexample :
    missingPointADemoState.stage = 3 ∧
    missingPointADemoState.form_data.get "point_a" = PyVal.none ∧
    pyIn "* **Starting Point (A):** None"
      (full_program_prompt missingPointADemoState.form_data) = true := by
  refine ⟨rfl, rfl, ?_⟩
  decide

/-- Claim C5 (amended): whenever the point_a value is missing, the composer
still produces a payload, substituting the Python text None for the missing
starting point; no MissingFieldError exists in the code. -/
theorem C5_missing_field_interpolates_none (data : Dict)
    (h : data.get "point_a" = PyVal.none) :
    pyIn "* **Starting Point (A):** None" (full_program_prompt data) = true := by
  have h1 : pyStr (data.get "point_a") = "None" := by
    rw [h]
    rfl
  unfold full_program_prompt
  rw [h1]
  simp only [pyIn, data_append]
  apply inStr_append_left
  apply inStr_append_left
  apply inStr_append_left
  apply inStr_append_left
  apply inStr_append_left
  rw [List.append_assoc]
  apply inStr_append_right
  rw [show ("\n        **Expert\x27s Transformation Method:**\n        * **Starting Point (A):** " : String).data ++
      ("None" : String).data =
      ("\n        **Expert\x27s Transformation Method:**\n        " : String).data ++
      ("* **Starting Point (A):** None" : String).data from by decide]
  exact inStr_suffix _ _

/-- Claim C5 (amended), witnessed on an empty form_data dict. -/
theorem C5_witness :
    pyIn "* **Starting Point (A):** None" (full_program_prompt Dict.empty) = true :=
  C5_missing_field_interpolates_none Dict.empty rfl

/-- Claim C9: counterexample. A reachable terminal state with goal
single_lesson and method Educational content whose problem answer contains
the words full program yields a single-lesson payload containing that
wording, so the payload is not free of it for all interpolated answers. -/
theorem C9_counterexample :
    adversarialState.stage = 3 ∧
    adversarialState.form_data.get "goal" = PyVal.str "single_lesson" ∧
    adversarialState.form_data.get "method" = PyVal.str "Educational content" ∧
    pyIn "full program" (single_lesson_prompt adversarialState.form_data) = true := by
  refine ⟨rfl, rfl, rfl, ?_⟩
  decide

/-- Claim C9 (amended): for every form_data with method Educational content
the single-lesson payload contains the 5-12 minutes duration instruction and
the request for 4-5 ideas; and with empty interpolated answers the payload
contains neither 12-Lesson nor full program wording, so such wording can only
enter through the interpolated answers themselves. -/
theorem C9_payload_contents (d : Dict)
    (h : d.get "method" = PyVal.str "Educational content") :
    pyIn "5-12 minutes" (single_lesson_prompt d) = true ∧
    pyIn "4-5" (single_lesson_prompt d) = true ∧
    pyIn "12-Lesson" (single_lesson_prompt emptyAnswersEduState.form_data) = false ∧
    pyIn "full program" (single_lesson_prompt emptyAnswersEduState.form_data) = false := by
  have hunf : single_lesson_prompt d = single_lesson_prompt_edu d := by
    unfold single_lesson_prompt
    rw [if_pos h]
  refine ⟨?_, ?_, by decide, by decide⟩
  · rw [hunf]
    unfold single_lesson_prompt_edu
    simp only [pyIn, data_append]
    apply inStr_append_right
    decide
  · rw [hunf]
    unfold single_lesson_prompt_edu
    simp only [pyIn, data_append]
    apply inStr_append_left
    apply inStr_append_left
    decide

/-- Claim C9 (amended), witnessed on the reachable empty-answers educational
terminal state. -/
theorem C9_witness :
    pyIn "5-12 minutes" (single_lesson_prompt emptyAnswersEduState.form_data) = true ∧
    pyIn "4-5" (single_lesson_prompt emptyAnswersEduState.form_data) = true := by
  have h := C9_payload_contents emptyAnswersEduState.form_data rfl
  exact ⟨h.1, h.2.1⟩
